import Mathlib

/-!
# Verification of the Squid controller firmware communication core

Shallow embedding of the Cephla-Lab/Squid firmware communication core:

* the protocol v2 frame receiver, command dispatcher and response builder
  (`src/firmware/controller/src/protocol_v2.cpp` / `protocol_v2.h`);
* the strobe/trigger interrupt handler
  (`src/firmware/octopi_firmware_v3/main_controller_teensy41/src/functions.cpp`);
* the legacy fixed-length TTL-only protocol
  (`src/firmware/controller_ttl_only/src/serial_communication.cpp`,
  `commands.cpp`, `illumination.cpp`, `utils/crc8.cpp`).

Machine integers are modelled as `Nat` with explicit `% 2^w` where overflow
matters.  Serial input bytes are reduced `% 256` at the point where the C code
assigns `uint8_t byte = SerialUSB.read()`.
-/

set_option maxRecDepth 100000

namespace Squid

/-! ## Constants from protocol_v2.h -/

def PACKET_HEADER_0 : Nat := 0xAA
def PACKET_HEADER_1 : Nat := 0xBB
def PACKET_MAX_PAYLOAD : Nat := 506
def RX_BUFFER_SIZE : Nat := 512

def STATUS_OK : Nat := 0x00
def STATUS_ACCEPTED : Nat := 0x01
def STATUS_REJECTED : Nat := 0x02
def STATUS_ERROR : Nat := 0x03

def ERR_NONE : Nat := 0x00
def ERR_INVALID_CMD : Nat := 0x01
def ERR_PACKET_TOO_SHORT : Nat := 0x07

def AXIS_IDLE : Nat := 0
def AXIS_MOVING : Nat := 1
def AXIS_HOMING : Nat := 2

def MODE_NORMAL : Nat := 0

def CMD_GET_STATE : Nat := 0xF0
def CMD_GET_VERSION : Nat := 0xF2
def CMD_RESET : Nat := 0xFF

/-! ## CRC-16

`crc16_ccitt` is declared in `src/firmware/controller/src/utils/crc16.h`
(poly 0x1021, initial value 0xFFFF); its `.cpp` body is not among the
sources. -/

/-- Modelled from the spec: the body of `crc16_ccitt` (file `utils/crc16.cpp`)
is missing from the sources, only `crc16.h` is present.  The spec fixes it as
CRC-16/CCITT-FALSE: polynomial 0x1021, initial value 0xFFFF, processed
MSB-first, one byte at a time. -/
def crc16_update (crc b : Nat) : Nat :=
  (List.range 8).foldl
    (fun c _ => if c &&& 0x8000 ≠ 0 then ((c <<< 1) ^^^ 0x1021) % 65536
                else (c <<< 1) % 65536)
    ((crc ^^^ ((b % 256) <<< 8)) % 65536)

/-- Modelled from the spec: CRC-16/CCITT-FALSE over a byte list, initial
value 0xFFFF. -/
def crc16_ccitt (data : List Nat) : Nat :=
  data.foldl crc16_update 0xFFFF

/-! ## Frame receiver state machine (`protocol_v2.cpp`, lines 24-152) -/

/-- `enum RxState` of protocol_v2.cpp. -/
inductive RxState where
  | RX_WAIT_HEADER_0
  | RX_WAIT_HEADER_1
  | RX_WAIT_LENGTH_0
  | RX_WAIT_LENGTH_1
  | RX_WAIT_PAYLOAD
  | RX_WAIT_CRC_0
  | RX_WAIT_CRC_1
  deriving DecidableEq, Repr

/-- The receiver's mutable statics (protocol_v2.cpp lines 34-38).
`rx_buffer` holds the live region of the C byte array: the bytes written
since the machine last entered `RX_WAIT_PAYLOAD`.  The stale tail of the
512-byte array is never read by the code (the CRC check reads exactly
`rx_payload_length` bytes, all freshly written), so it is not modelled. -/
structure RxSt where
  rx_state : RxState
  rx_buffer : List Nat
  rx_payload_length : Nat
  rx_payload_received : Nat
  rx_crc_received : Nat
  deriving DecidableEq, Repr

/-- One step of `protocol_v2_process`: the state update, the frame (payload
bytes and implicitly its length) handed to `process_command` if the step
completes a valid packet, and the `rx_buffer` index written, if any. -/
structure RxStepOut where
  st : RxSt
  frame : Option (List Nat)
  writeIdx : Option Nat
  deriving DecidableEq, Repr

/-- One iteration of the `while (SerialUSB.available())` loop of
`protocol_v2_process` (protocol_v2.cpp lines 76-150), for one input byte.
The C code stores `SerialUSB.read()` into `uint8_t byte`, modelled by the
`% 256` reduction.  Counters are `uint16_t`, hence the `% 65536`. -/
def protocol_v2_step (s : RxSt) (b : Nat) : RxStepOut :=
  let byte := b % 256
  match s.rx_state with
  | .RX_WAIT_HEADER_0 =>
      if byte = PACKET_HEADER_0 then
        ⟨{ s with rx_state := .RX_WAIT_HEADER_1 }, none, none⟩
      else
        ⟨s, none, none⟩
  | .RX_WAIT_HEADER_1 =>
      if byte = PACKET_HEADER_1 then
        ⟨{ s with rx_state := .RX_WAIT_LENGTH_0 }, none, none⟩
      else if byte = PACKET_HEADER_0 then
        ⟨{ s with rx_state := .RX_WAIT_HEADER_1 }, none, none⟩
      else
        ⟨{ s with rx_state := .RX_WAIT_HEADER_0 }, none, none⟩
  | .RX_WAIT_LENGTH_0 =>
      ⟨{ s with rx_payload_length := byte, rx_state := .RX_WAIT_LENGTH_1 }, none, none⟩
  | .RX_WAIT_LENGTH_1 =>
      let len := (s.rx_payload_length ||| (byte <<< 8)) % 65536
      if len = 0 ∨ len > PACKET_MAX_PAYLOAD then
        ⟨{ s with rx_payload_length := len, rx_state := .RX_WAIT_HEADER_0 }, none, none⟩
      else
        ⟨{ s with rx_payload_length := len, rx_payload_received := 0, rx_buffer := [], rx_state := .RX_WAIT_PAYLOAD }, none, none⟩
  | .RX_WAIT_PAYLOAD =>
      let received := (s.rx_payload_received + 1) % 65536
      let s' := { s with rx_buffer := s.rx_buffer ++ [byte], rx_payload_received := received }
      if received ≥ s.rx_payload_length then
        ⟨{ s' with rx_state := .RX_WAIT_CRC_0 }, none, some s.rx_payload_received⟩
      else
        ⟨s', none, some s.rx_payload_received⟩
  | .RX_WAIT_CRC_0 =>
      ⟨{ s with rx_crc_received := byte, rx_state := .RX_WAIT_CRC_1 }, none, none⟩
  | .RX_WAIT_CRC_1 =>
      let crc_received := (s.rx_crc_received ||| (byte <<< 8)) % 65536
      let crc_data := [s.rx_payload_length % 256, (s.rx_payload_length >>> 8) % 256]
                        ++ s.rx_buffer.take s.rx_payload_length
      let calculated := crc16_ccitt crc_data
      if calculated = crc_received then
        ⟨{ s with rx_crc_received := crc_received, rx_state := .RX_WAIT_HEADER_0 },
          some (s.rx_buffer.take s.rx_payload_length), none⟩
      else
        ⟨{ s with rx_crc_received := crc_received, rx_state := .RX_WAIT_HEADER_0 },
          none, none⟩

/-- The receiver state set up by `protocol_v2_init` (protocol_v2.cpp
lines 58-68). -/
def protocol_v2_initSt : RxSt :=
  ⟨.RX_WAIT_HEADER_0, [], 0, 0, 0⟩

/-- Run the receiver over a byte list, collecting the payloads handed to
`process_command` (in order).  Feeding a list models one call of
`protocol_v2_process` with those bytes available on the serial port. -/
def protocol_v2_processBytes : RxSt → List Nat → RxSt × List (List Nat)
  | s, [] => (s, [])
  | s, b :: bs =>
      let out := protocol_v2_step s b
      let rest := protocol_v2_processBytes out.st bs
      (rest.1, out.frame.toList ++ rest.2)

/-- Run the receiver over a byte list, collecting every `rx_buffer` index
written. -/
def protocol_v2_writes : RxSt → List Nat → List Nat
  | _, [] => []
  | s, b :: bs =>
      let out := protocol_v2_step s b
      out.writeIdx.toList ++ protocol_v2_writes out.st bs

/-- Feed the receiver chunk by chunk: repeated calls of
`protocol_v2_process`, each with one chunk available. -/
def protocol_v2_processChunks : RxSt → List (List Nat) → RxSt × List (List Nat)
  | s, [] => (s, [])
  | s, c :: cs =>
      let out := protocol_v2_processBytes s c
      let rest := protocol_v2_processChunks out.1 cs
      (rest.1, out.2 ++ rest.2)

/-! ### Arithmetic helper -/

/-- If the low part fits in `n` bits, `a ||| (b <<< n)` is the arithmetic
recombination `a + 2 ^ n * b`. -/
theorem lor_shiftLeft_eq_add : ∀ n a b : Nat, a < 2 ^ n →
    a ||| (b <<< n) = a + 2 ^ n * b := by
  intro n
  induction n with
  | zero =>
    intro a b ha
    interval_cases a
    simp [Nat.shiftLeft_eq]
  | succ n ih =>
    intro a b ha
    have ha' : a.div2 < 2 ^ n := by
      have h2 : a < 2 ^ n * 2 := by rwa [Nat.pow_succ] at ha
      rw [Nat.div2_val]
      omega
    have hb : b <<< (n + 1) = Nat.bit false (b <<< n) := by
      simp [Nat.bit_val, Nat.shiftLeft_eq, Nat.pow_succ]
      ring
    calc a ||| (b <<< (n + 1))
        = Nat.bit a.bodd a.div2 ||| Nat.bit false (b <<< n) := by
          rw [Nat.bit_decomp, ← hb]
      _ = Nat.bit (a.bodd || false) (a.div2 ||| (b <<< n)) := by
          rw [Nat.lor_bit]
      _ = Nat.bit a.bodd (a.div2 + 2 ^ n * b) := by rw [Bool.or_false, ih _ _ ha']
      _ = a + 2 ^ (n + 1) * b := by
          rw [Nat.bit_val]
          have h1 := Nat.bodd_add_div2 a
          have h2 : 2 ^ (n + 1) * b = 2 * (2 ^ n * b) := by
            rw [Nat.pow_succ]; ring
          omega

/-- Little-endian byte recombination: for `a < 256`, the C idiom
`a |= (b << 8)` yields `a + 256 * b`. -/
theorem lor_shiftLeft8 (a b : Nat) (ha : a < 256) :
    a ||| (b <<< 8) = a + 256 * b :=
  lor_shiftLeft_eq_add 8 a b ha

/-! ### Run lemmas -/

theorem processBytes_nil (s : RxSt) : protocol_v2_processBytes s [] = (s, []) := rfl

theorem processBytes_cons (s : RxSt) (b : Nat) (bs : List Nat) :
    protocol_v2_processBytes s (b :: bs) =
      ((protocol_v2_processBytes (protocol_v2_step s b).st bs).1,
       (protocol_v2_step s b).frame.toList
         ++ (protocol_v2_processBytes (protocol_v2_step s b).st bs).2) := rfl

theorem processBytes_append (s : RxSt) (xs ys : List Nat) :
    protocol_v2_processBytes s (xs ++ ys) =
      ((protocol_v2_processBytes (protocol_v2_processBytes s xs).1 ys).1,
       (protocol_v2_processBytes s xs).2
         ++ (protocol_v2_processBytes (protocol_v2_processBytes s xs).1 ys).2) := by
  induction xs generalizing s with
  | nil => simp [processBytes_nil]
  | cons b bs ih => simp [processBytes_cons, ih]

theorem processChunks_eq (s : RxSt) (chunks : List (List Nat)) :
    protocol_v2_processChunks s chunks = protocol_v2_processBytes s chunks.flatten := by
  induction chunks generalizing s with
  | nil => rfl
  | cons c cs ih =>
    show (let out := protocol_v2_processBytes s c
          let rest := protocol_v2_processChunks out.1 cs
          (rest.1, out.2 ++ rest.2)) = _
    simp only [ih, List.flatten_cons, processBytes_append]

theorem flatten_map_singleton (bytes : List Nat) :
    (bytes.map (fun b => [b])).flatten = bytes := by
  induction bytes with
  | nil => rfl
  | cons b bs ih => simp [ih]

/-- C2: for every input byte sequence, feeding it to the frame receiver split
into chunks at arbitrary boundaries — in particular one byte at a time —
yields the same accepted frames, in order, and the same final receiver state
as feeding it as one contiguous block. -/
theorem protocol_v2_chunk_independence (chunks : List (List Nat)) (bytes : List Nat) :
    protocol_v2_processChunks protocol_v2_initSt chunks
        = protocol_v2_processBytes protocol_v2_initSt chunks.flatten
      ∧ protocol_v2_processChunks protocol_v2_initSt (bytes.map (fun b => [b]))
        = protocol_v2_processBytes protocol_v2_initSt bytes := by
  refine ⟨processChunks_eq _ _, ?_⟩
  rw [processChunks_eq, flatten_map_singleton]

/-! ### Buffer-write safety (C10) -/

/-- The receiver invariant behind in-bounds buffer writes: whenever the
machine is collecting payload bytes, the write cursor is below the validated
payload length, which is at most `PACKET_MAX_PAYLOAD`. -/
def RxInv (s : RxSt) : Prop :=
  s.rx_state = .RX_WAIT_PAYLOAD →
    s.rx_payload_received < s.rx_payload_length ∧ s.rx_payload_length ≤ 506

theorem rxInv_init : RxInv protocol_v2_initSt := by
  intro h
  simp [protocol_v2_initSt] at h

theorem rxInv_step (s : RxSt) (b : Nat) (h : RxInv s) :
    RxInv (protocol_v2_step s b).st := by
  cases hs : s.rx_state <;>
    simp [protocol_v2_step, RxInv, PACKET_MAX_PAYLOAD, hs] at h ⊢ <;>
    split_ifs <;> simp_all <;> omega

theorem step_writeIdx_lt (s : RxSt) (b : Nat) (h : RxInv s) (i : Nat)
    (hw : (protocol_v2_step s b).writeIdx = some i) : i < 506 := by
  cases hs : s.rx_state
  case RX_WAIT_PAYLOAD =>
    obtain ⟨h1, h2⟩ := h hs
    simp only [protocol_v2_step, hs] at hw
    split_ifs at hw <;> (simp only [Option.some.injEq] at hw; omega)
  all_goals
    simp only [protocol_v2_step, hs] at hw <;>
      (try split_ifs at hw) <;> simp_all

theorem writes_lt_aux (bytes : List Nat) (s : RxSt) (h : RxInv s) :
    ∀ i ∈ protocol_v2_writes s bytes, i < 506 := by
  induction bytes generalizing s with
  | nil => intro i hi; simp [protocol_v2_writes] at hi
  | cons b bs ih =>
    intro i hi
    simp only [protocol_v2_writes, List.mem_append] at hi
    rcases hi with hi | hi
    · rcases hw : (protocol_v2_step s b).writeIdx with _ | j
      · simp [hw] at hi
      · simp [hw] at hi
        exact hi ▸ step_writeIdx_lt s b h j hw
    · exact ih (protocol_v2_step s b).st (rxInv_step s b h) i hi

/-- C10: every `rx_buffer` write the receiver performs, over any input byte
sequence fed from the initial state, happens at an index of at most 505,
strictly below `RX_BUFFER_SIZE` (512): the machine only collects payload
bytes with `rx_payload_received < rx_payload_length ≤ 506`. -/
theorem protocol_v2_writes_in_bounds (bytes : List Nat) (i : Nat)
    (hi : i ∈ protocol_v2_writes protocol_v2_initSt bytes) :
    i ≤ 505 ∧ i < RX_BUFFER_SIZE := by
  have := writes_lt_aux bytes protocol_v2_initSt rxInv_init i hi
  refine ⟨by omega, ?_⟩
  simp only [RX_BUFFER_SIZE]
  omega

/-- Witness for C10 at a concrete input: the 1-byte frame prefix
`AA BB 01 00 07` performs exactly one buffer write, at index 0. -/
theorem protocol_v2_writes_in_bounds_witness :
    0 ∈ protocol_v2_writes protocol_v2_initSt [0xAA, 0xBB, 0x01, 0x00, 0x07]
      ∧ (0 ≤ 505 ∧ 0 < RX_BUFFER_SIZE) := by
  exact ⟨by decide,
    protocol_v2_writes_in_bounds [0xAA, 0xBB, 0x01, 0x00, 0x07] 0 (by decide)⟩

/-! ### Frame acceptance (C1, C3) -/

/-- Collecting the payload: in `RX_WAIT_PAYLOAD` with `p.length` bytes still
missing, feeding `p` stores it and moves to `RX_WAIT_CRC_0`. -/
theorem payload_run (p : List Nat) : ∀ (s : RxSt),
    s.rx_state = .RX_WAIT_PAYLOAD →
    s.rx_payload_length ≤ 506 →
    s.rx_payload_received + p.length = s.rx_payload_length →
    (∀ b ∈ p, b < 256) →
    p ≠ [] →
    protocol_v2_processBytes s p =
      ({ s with rx_state := .RX_WAIT_CRC_0, rx_buffer := s.rx_buffer ++ p, rx_payload_received := s.rx_payload_length }, []) := by
  induction p with
  | nil => intro s _ _ _ _ hne; exact absurd rfl hne
  | cons x xs ih =>
    intro s hs hlen hsum hb _
    have hx : x % 256 = x := Nat.mod_eq_of_lt (hb x (by simp))
    cases xs with
    | nil =>
      have hr : s.rx_payload_received + 1 = s.rx_payload_length := by
        simpa using hsum
      have hmod : (s.rx_payload_received + 1) % 65536 = s.rx_payload_received + 1 := by
        omega
      simp only [processBytes_cons, protocol_v2_step, hs, hx, hmod, processBytes_nil]
      rw [if_pos (by omega)]
      simp [hr]
    | cons y ys =>
      have hlt : s.rx_payload_received + 1 < s.rx_payload_length := by
        simp only [List.length_cons] at hsum
        omega
      have hmod : (s.rx_payload_received + 1) % 65536 = s.rx_payload_received + 1 := by
        omega
      rw [processBytes_cons]
      have hstep : protocol_v2_step s x =
          ⟨{ s with rx_buffer := s.rx_buffer ++ [x], rx_payload_received := s.rx_payload_received + 1 }, none, some s.rx_payload_received⟩ := by
        simp only [protocol_v2_step, hs, hx, hmod]
        rw [if_neg (by omega)]
      rw [hstep]
      dsimp only
      rw [ih { s with rx_buffer := s.rx_buffer ++ [x], rx_payload_received := s.rx_payload_received + 1 }
        hs hlen
        (by simp only [List.length_cons] at hsum ⊢; omega)
        (fun b hbm => hb b (by simp [hbm])) (by simp)]
      simp

/-- Accepting a frame from `RX_WAIT_HEADER_1`: after the second header byte,
the length bytes, the payload, and the two CRC bytes, the machine is back in
`RX_WAIT_HEADER_0`; the payload is handed to `process_command` exactly when
the computed CRC-16 equals the received little-endian CRC. -/
theorem accept_from_header1 (s : RxSt) (payload : List Nat) (crc_lo crc_hi : Nat)
    (hs : s.rx_state = .RX_WAIT_HEADER_1)
    (h1 : 1 ≤ payload.length) (h2 : payload.length ≤ 506)
    (hb : ∀ b ∈ payload, b < 256) (hlo : crc_lo < 256) (hhi : crc_hi < 256) :
    protocol_v2_processBytes s
        (0xBB :: payload.length % 256 :: payload.length / 256 :: (payload ++ [crc_lo, crc_hi]))
      = (⟨.RX_WAIT_HEADER_0, payload, payload.length, payload.length, crc_lo + 256 * crc_hi⟩,
         if crc16_ccitt (payload.length % 256 :: payload.length / 256 :: payload)
              = crc_lo + 256 * crc_hi
           then [payload] else []) := by
  have hdiv : payload.length / 256 ≤ 1 := by omega
  -- the 0xBB byte
  rw [processBytes_cons]
  have hstep1 : protocol_v2_step s 0xBB = ⟨{ s with rx_state := .RX_WAIT_LENGTH_0 }, none, none⟩ := by
    simp [protocol_v2_step, hs, PACKET_HEADER_1]
  rw [hstep1]
  dsimp only
  -- the low length byte
  rw [processBytes_cons]
  have hstep2 : protocol_v2_step { s with rx_state := .RX_WAIT_LENGTH_0 } (payload.length % 256)
      = ⟨{ s with rx_payload_length := payload.length % 256, rx_state := .RX_WAIT_LENGTH_1 }, none, none⟩ := by
    simp only [protocol_v2_step]
    rw [show payload.length % 256 % 256 = payload.length % 256 from by omega]
  rw [hstep2]
  dsimp only
  -- the high length byte: the recombined length is validated
  rw [processBytes_cons]
  have hlen : (payload.length % 256 ||| (payload.length / 256 % 256) <<< 8) % 65536
      = payload.length := by
    rw [show payload.length / 256 % 256 = payload.length / 256 from by omega]
    rw [lor_shiftLeft8 _ _ (by omega)]
    omega
  have hstep3 : protocol_v2_step { s with rx_payload_length := payload.length % 256, rx_state := .RX_WAIT_LENGTH_1 } (payload.length / 256)
      = ⟨{ s with rx_payload_length := payload.length, rx_payload_received := 0, rx_buffer := [], rx_state := .RX_WAIT_PAYLOAD }, none, none⟩ := by
    simp only [protocol_v2_step, hlen]
    rw [if_neg (by simp only [PACKET_MAX_PAYLOAD]; omega)]
  rw [hstep3]
  dsimp only
  -- the payload bytes
  rw [processBytes_append]
  rw [payload_run payload
      { s with rx_payload_length := payload.length, rx_payload_received := 0, rx_buffer := [], rx_state := .RX_WAIT_PAYLOAD }
      rfl (by dsimp only; omega) (by simp) hb (by intro hc; rw [hc] at h1; simp at h1)]
  dsimp only
  -- the low CRC byte
  rw [processBytes_cons]
  have hstep4 : protocol_v2_step { s with rx_payload_length := payload.length, rx_payload_received := payload.length, rx_buffer := [] ++ payload, rx_state := .RX_WAIT_CRC_0 } crc_lo
      = ⟨{ s with rx_payload_length := payload.length, rx_payload_received := payload.length, rx_buffer := [] ++ payload, rx_crc_received := crc_lo, rx_state := .RX_WAIT_CRC_1 }, none, none⟩ := by
    simp only [protocol_v2_step]
    rw [show crc_lo % 256 = crc_lo from by omega]
  rw [hstep4]
  dsimp only
  -- the high CRC byte: CRC check and reset to RX_WAIT_HEADER_0
  rw [processBytes_cons]
  have hcrc : (crc_lo ||| (crc_hi % 256) <<< 8) % 65536 = crc_lo + 256 * crc_hi := by
    rw [show crc_hi % 256 = crc_hi from by omega]
    rw [lor_shiftLeft8 _ _ (by omega)]
    omega
  have hdata : ([payload.length % 256, (payload.length >>> 8) % 256] ++ ([] ++ payload).take payload.length)
      = payload.length % 256 :: payload.length / 256 :: payload := by
    rw [Nat.shiftRight_eq_div_pow]
    rw [show payload.length / 2 ^ 8 % 256 = payload.length / 256 from by omega]
    simp
  simp only [protocol_v2_step, hcrc, hdata, processBytes_nil]
  split_ifs <;> simp

/-- C1: for every payload of length 1..506 and received CRC bytes, feeding
the receiver the frame `AA BB len_lo len_hi payload crc_lo crc_hi` from the
initial state hands the payload to `process_command` exactly when the
CRC-16/CCITT-FALSE over the length bytes and payload equals the
little-endian received CRC value, hands nothing otherwise, and in either
case leaves the machine in `RX_WAIT_HEADER_0` after the last CRC byte. -/
theorem protocol_v2_frame_acceptance (payload : List Nat) (crc_lo crc_hi : Nat)
    (h1 : 1 ≤ payload.length) (h2 : payload.length ≤ 506)
    (hb : ∀ b ∈ payload, b < 256) (hlo : crc_lo < 256) (hhi : crc_hi < 256) :
    protocol_v2_processBytes protocol_v2_initSt
        (0xAA :: 0xBB :: payload.length % 256 :: payload.length / 256 :: (payload ++ [crc_lo, crc_hi]))
      = (⟨.RX_WAIT_HEADER_0, payload, payload.length, payload.length, crc_lo + 256 * crc_hi⟩,
         if crc16_ccitt (payload.length % 256 :: payload.length / 256 :: payload)
              = crc_lo + 256 * crc_hi
           then [payload] else []) := by
  rw [processBytes_cons]
  rw [show protocol_v2_step protocol_v2_initSt 0xAA
        = ⟨{ protocol_v2_initSt with rx_state := .RX_WAIT_HEADER_1 }, none, none⟩ from rfl]
  dsimp only
  rw [accept_from_header1 _ payload crc_lo crc_hi rfl h1 h2 hb hlo hhi]
  simp

/-- Witness for C1 at the concrete payload `[1, 2]`, whose frame CRC is
31451 = 219 + 256 * 122: the frame is accepted; a CRC byte off by one is
rejected, with the machine back in `RX_WAIT_HEADER_0` both times. -/
theorem protocol_v2_frame_acceptance_witness :
    protocol_v2_processBytes protocol_v2_initSt [0xAA, 0xBB, 2, 0, 1, 2, 219, 122]
        = (⟨.RX_WAIT_HEADER_0, [1, 2], 2, 2, 31451⟩, [[1, 2]])
      ∧ protocol_v2_processBytes protocol_v2_initSt [0xAA, 0xBB, 2, 0, 1, 2, 220, 122]
        = (⟨.RX_WAIT_HEADER_0, [1, 2], 2, 2, 31452⟩, []) := by
  constructor
  · have h := protocol_v2_frame_acceptance [1, 2] 219 122
      (by decide) (by decide) (by decide) (by decide) (by decide)
    exact h.trans (by decide)
  · have h := protocol_v2_frame_acceptance [1, 2] 220 122
      (by decide) (by decide) (by decide) (by decide) (by decide)
    exact h.trans (by decide)

/-- C3: in `RX_WAIT_HEADER_1`, the byte 0xBB advances to `RX_WAIT_LENGTH_0`,
0xAA keeps the machine in `RX_WAIT_HEADER_1`, and any other byte resets it to
`RX_WAIT_HEADER_0`; consequently a well-formed frame prefixed by one extra
0xAA is still accepted: the receiver resynchronizes on the frame that starts
at the second 0xAA. -/
theorem protocol_v2_header1_resync (s : RxSt) (b : Nat)
    (hs : s.rx_state = .RX_WAIT_HEADER_1)
    (payload : List Nat) (crc_lo crc_hi : Nat)
    (h1 : 1 ≤ payload.length) (h2 : payload.length ≤ 506)
    (hb : ∀ x ∈ payload, x < 256) (hlo : crc_lo < 256) (hhi : crc_hi < 256)
    (hcrc : crc16_ccitt (payload.length % 256 :: payload.length / 256 :: payload)
      = crc_lo + 256 * crc_hi) :
    (protocol_v2_step s b).st.rx_state
        = (if b % 256 = PACKET_HEADER_1 then .RX_WAIT_LENGTH_0
           else if b % 256 = PACKET_HEADER_0 then .RX_WAIT_HEADER_1
           else .RX_WAIT_HEADER_0)
      ∧ (protocol_v2_processBytes protocol_v2_initSt
           (0xAA :: 0xAA :: 0xBB :: payload.length % 256 :: payload.length / 256 :: (payload ++ [crc_lo, crc_hi]))).2
        = [payload]
      ∧ (protocol_v2_processBytes protocol_v2_initSt
           (0xAA :: 0xAA :: 0xBB :: payload.length % 256 :: payload.length / 256 :: (payload ++ [crc_lo, crc_hi]))).1.rx_state
        = .RX_WAIT_HEADER_0 := by
  have hrun : protocol_v2_processBytes protocol_v2_initSt
      (0xAA :: 0xAA :: 0xBB :: payload.length % 256 :: payload.length / 256 :: (payload ++ [crc_lo, crc_hi]))
      = (⟨.RX_WAIT_HEADER_0, payload, payload.length, payload.length, crc_lo + 256 * crc_hi⟩, [payload]) := by
    rw [processBytes_cons]
    rw [show protocol_v2_step protocol_v2_initSt 0xAA
          = ⟨{ protocol_v2_initSt with rx_state := .RX_WAIT_HEADER_1 }, none, none⟩ from rfl]
    dsimp only
    rw [processBytes_cons]
    rw [show protocol_v2_step { protocol_v2_initSt with rx_state := .RX_WAIT_HEADER_1 } 0xAA
          = ⟨{ protocol_v2_initSt with rx_state := .RX_WAIT_HEADER_1 }, none, none⟩ from rfl]
    dsimp only
    rw [accept_from_header1 _ payload crc_lo crc_hi rfl h1 h2 hb hlo hhi]
    simp [hcrc]
  refine ⟨?_, by rw [hrun], by rw [hrun]⟩
  simp only [protocol_v2_step, hs]
  split_ifs <;> rfl

/-- Witness for C3: in `RX_WAIT_HEADER_1` the byte 0xBB advances to
`RX_WAIT_LENGTH_0`, and the double-0xAA frame for payload `[1, 2]` is
accepted with the machine back in `RX_WAIT_HEADER_0`. -/
theorem protocol_v2_header1_resync_witness :
    (protocol_v2_step ⟨.RX_WAIT_HEADER_1, [], 0, 0, 0⟩ 0xBB).st.rx_state = .RX_WAIT_LENGTH_0
      ∧ (protocol_v2_processBytes protocol_v2_initSt
           [0xAA, 0xAA, 0xBB, 2, 0, 1, 2, 219, 122]).2 = [[1, 2]]
      ∧ (protocol_v2_processBytes protocol_v2_initSt
           [0xAA, 0xAA, 0xBB, 2, 0, 1, 2, 219, 122]).1.rx_state = .RX_WAIT_HEADER_0 := by
  obtain ⟨ha, hb, hc⟩ := protocol_v2_header1_resync ⟨.RX_WAIT_HEADER_1, [], 0, 0, 0⟩ 0xBB rfl
    [1, 2] 219 122 (by decide) (by decide) (by decide) (by decide) (by decide) (by decide)
  exact ⟨ha.trans (by decide), hb, hc⟩

/-! ## Global firmware state consumed by the dispatcher and response builder

The strobe arrays are declared in the firmware's functions.cpp
(`octopi_firmware_v3/main_controller_teensy41/src/functions.cpp`,
lines 191-197). -/

/-- One strobe/trigger channel's bookkeeping (functions.cpp lines 191-197).
`strobe_delay` is C `unsigned long`; `illumination_on_time` and
`timestamp_trigger_rising_edge` are C `long`, armed by the command path with
non-negative microsecond values, so all three are modelled as `Nat`. -/
structure StrobeChannel where
  control_strobe : Bool
  strobe_output_level : Bool
  strobe_on : Bool
  strobe_delay : Nat
  illumination_on_time : Nat
  timestamp_trigger_rising_edge : Nat
  deriving DecidableEq, Repr

/-- The firmware globals read or written by `protocol_v2_build_response`,
`handle_cmd_reset` and the other v2 handlers.  Encoder positions (`X_pos`,
...) and motion-controller readbacks (`tmc4361A_currentPosition(...)`) are
modelled as stored values. -/
structure Globals where
  mcu_cmd_execution_in_progress : Bool
  X_commanded_movement_in_progress : Bool
  Y_commanded_movement_in_progress : Bool
  Z_commanded_movement_in_progress : Bool
  W_commanded_movement_in_progress : Bool
  is_homing_X : Bool
  is_homing_Y : Bool
  is_homing_Z : Bool
  is_homing_W : Bool
  is_homing_XY : Bool
  home_X_found : Bool
  home_Y_found : Bool
  home_Z_found : Bool
  home_W_found : Bool
  is_preparing_for_homing_X : Bool
  is_preparing_for_homing_Y : Bool
  is_preparing_for_homing_Z : Bool
  is_preparing_for_homing_W : Bool
  trigger_mode : Nat
  X_use_encoder : Bool
  Y_use_encoder : Bool
  Z_use_encoder : Bool
  X_pos : Int
  Y_pos : Int
  Z_pos : Int
  tmc4361_pos_x : Int
  tmc4361_pos_y : Int
  tmc4361_pos_z : Int
  tmc4361_pos_w : Int
  X_commanded_target_position : Int
  Y_commanded_target_position : Int
  Z_commanded_target_position : Int
  W_commanded_target_position : Int
  joystick_delta_x : Int
  joystick_delta_y : Int
  joystick_button_pressed : Bool
  illumination_channel_states : Nat
  current_led_pattern : Nat
  strobe_channels : List StrobeChannel
  deriving DecidableEq, Repr

/-- `struct AxisStatus` of protocol_v2.h (12 bytes). -/
structure AxisStatus where
  position_usteps : Int
  target_usteps : Int
  state : Nat
  error_code : Nat
  homed : Nat
  reserved : Nat
  deriving DecidableEq, Repr

/-- `struct ResponsePacket` of protocol_v2.h (78 bytes, packed). -/
structure ResponsePacket where
  cmd_id : Nat
  status : Nat
  error_code : Nat
  system_mode : Nat
  axes0 : AxisStatus
  axes1 : AxisStatus
  axes2 : AxisStatus
  axes3 : AxisStatus
  dac_values : List Nat
  illum_on_mask : Nat
  led_pattern : Nat
  joystick_delta_x : Int
  joystick_delta_y : Int
  buttons : Nat
  reserved : List Nat
  deriving DecidableEq, Repr

/-- `protocol_v2_build_response` (protocol_v2.cpp lines 158-235): the
response is memset to zero and then filled in; fields the code never assigns
after the memset (axis `error_code` and `reserved`, `dac_values`, trailing
`reserved`) remain zero. -/
def protocol_v2_build_response (g : Globals) (cmd_id status error : Nat) : ResponsePacket :=
  { cmd_id := cmd_id
    status := status
    error_code := error
    system_mode := MODE_NORMAL
    axes0 :=
      { position_usteps := if g.X_use_encoder then g.X_pos else g.tmc4361_pos_x
        target_usteps := g.X_commanded_target_position
        state := if g.is_homing_X || g.is_preparing_for_homing_X then AXIS_HOMING
                 else if g.X_commanded_movement_in_progress then AXIS_MOVING
                 else AXIS_IDLE
        error_code := 0
        homed := if g.home_X_found then 1 else 0
        reserved := 0 }
    axes1 :=
      { position_usteps := if g.Y_use_encoder then g.Y_pos else g.tmc4361_pos_y
        target_usteps := g.Y_commanded_target_position
        state := if g.is_homing_Y || g.is_preparing_for_homing_Y then AXIS_HOMING
                 else if g.Y_commanded_movement_in_progress then AXIS_MOVING
                 else AXIS_IDLE
        error_code := 0
        homed := if g.home_Y_found then 1 else 0
        reserved := 0 }
    axes2 :=
      { position_usteps := if g.Z_use_encoder then g.Z_pos else g.tmc4361_pos_z
        target_usteps := g.Z_commanded_target_position
        state := if g.is_homing_Z || g.is_preparing_for_homing_Z then AXIS_HOMING
                 else if g.Z_commanded_movement_in_progress then AXIS_MOVING
                 else AXIS_IDLE
        error_code := 0
        homed := if g.home_Z_found then 1 else 0
        reserved := 0 }
    axes3 :=
      { position_usteps := g.tmc4361_pos_w
        target_usteps := g.W_commanded_target_position
        state := if g.is_homing_W || g.is_preparing_for_homing_W then AXIS_HOMING
                 else if g.W_commanded_movement_in_progress then AXIS_MOVING
                 else AXIS_IDLE
        error_code := 0
        homed := if g.home_W_found then 1 else 0
        reserved := 0 }
    dac_values := [0, 0, 0, 0, 0, 0, 0, 0]
    illum_on_mask := g.illumination_channel_states
    led_pattern := g.current_led_pattern
    joystick_delta_x := g.joystick_delta_x
    joystick_delta_y := g.joystick_delta_y
    buttons := if g.joystick_button_pressed then 0x01 else 0x00
    reserved := [0, 0, 0] }

/-- `handle_cmd_get_state` (protocol_v2.cpp lines 308-314): no side effect,
one response with current state. -/
def handle_cmd_get_state (g : Globals) (cmd_id : Nat) : Globals × List ResponsePacket :=
  (g, [protocol_v2_build_response g cmd_id STATUS_OK ERR_NONE])

/-- `handle_cmd_reset` (protocol_v2.cpp lines 316-347). -/
def handle_cmd_reset (g : Globals) (cmd_id : Nat) : Globals × List ResponsePacket :=
  let g' := { g with
    mcu_cmd_execution_in_progress := false
    X_commanded_movement_in_progress := false
    Y_commanded_movement_in_progress := false
    Z_commanded_movement_in_progress := false
    W_commanded_movement_in_progress := false
    is_homing_X := false
    is_homing_Y := false
    is_homing_Z := false
    is_homing_W := false
    is_homing_XY := false
    home_X_found := false
    home_Y_found := false
    home_Z_found := false
    home_W_found := false
    is_preparing_for_homing_X := false
    is_preparing_for_homing_Y := false
    is_preparing_for_homing_Z := false
    is_preparing_for_homing_W := false
    trigger_mode := 0
    illumination_channel_states := 0
    current_led_pattern := 0 }
  (g', [protocol_v2_build_response g' cmd_id STATUS_OK ERR_NONE])

/-- `handle_cmd_get_version` (protocol_v2.cpp lines 349-356): stub, returns
bare OK. -/
def handle_cmd_get_version (g : Globals) (cmd_id : Nat) : Globals × List ResponsePacket :=
  (g, [protocol_v2_build_response g cmd_id STATUS_OK ERR_NONE])

/-- `handle_unknown_command` (protocol_v2.cpp lines 358-363). -/
def handle_unknown_command (g : Globals) (cmd_id _cmd_type : Nat) : Globals × List ResponsePacket :=
  (g, [protocol_v2_build_response g cmd_id STATUS_REJECTED ERR_INVALID_CMD])

/-- `process_command` (protocol_v2.cpp lines 269-302): the validated frame
payload is dispatched on `payload[1]`; a payload under 2 bytes is rejected
with `ERR_PACKET_TOO_SHORT` and `cmd_id = 0`.  The returned list holds the
responses sent. -/
def process_command (g : Globals) (payload : List Nat) : Globals × List ResponsePacket :=
  if payload.length < 2 then
    (g, [protocol_v2_build_response g 0 STATUS_REJECTED ERR_PACKET_TOO_SHORT])
  else
    let cmd_id := payload.getD 0 0
    let cmd_type := payload.getD 1 0
    if cmd_type = CMD_GET_STATE then handle_cmd_get_state g cmd_id
    else if cmd_type = CMD_RESET then handle_cmd_reset g cmd_id
    else if cmd_type = CMD_GET_VERSION then handle_cmd_get_version g cmd_id
    else handle_unknown_command g cmd_id cmd_type

/-! ### Dispatcher and response-builder properties (C4, C5, C7, C9) -/

/-- C4: for every axis and every combination of the homing / preparing /
movement flags, `protocol_v2_build_response` derives the axis state with
precedence HOMING over MOVING over IDLE, and every combination yields one of
the three defined states. -/
theorem protocol_v2_motion_state_precedence (g : Globals) (cmd_id status error : Nat) :
    ((protocol_v2_build_response g cmd_id status error).axes0.state
        = (if g.is_homing_X || g.is_preparing_for_homing_X then AXIS_HOMING
           else if g.X_commanded_movement_in_progress then AXIS_MOVING else AXIS_IDLE))
    ∧ ((protocol_v2_build_response g cmd_id status error).axes1.state
        = (if g.is_homing_Y || g.is_preparing_for_homing_Y then AXIS_HOMING
           else if g.Y_commanded_movement_in_progress then AXIS_MOVING else AXIS_IDLE))
    ∧ ((protocol_v2_build_response g cmd_id status error).axes2.state
        = (if g.is_homing_Z || g.is_preparing_for_homing_Z then AXIS_HOMING
           else if g.Z_commanded_movement_in_progress then AXIS_MOVING else AXIS_IDLE))
    ∧ ((protocol_v2_build_response g cmd_id status error).axes3.state
        = (if g.is_homing_W || g.is_preparing_for_homing_W then AXIS_HOMING
           else if g.W_commanded_movement_in_progress then AXIS_MOVING else AXIS_IDLE))
    ∧ (∀ a ∈ [(protocol_v2_build_response g cmd_id status error).axes0,
              (protocol_v2_build_response g cmd_id status error).axes1,
              (protocol_v2_build_response g cmd_id status error).axes2,
              (protocol_v2_build_response g cmd_id status error).axes3],
        a.state = AXIS_HOMING ∨ a.state = AXIS_MOVING ∨ a.state = AXIS_IDLE) := by
  refine ⟨rfl, rfl, rfl, rfl, ?_⟩
  intro a ha
  simp only [protocol_v2_build_response, List.mem_cons, List.not_mem_nil, or_false] at ha
  rcases ha with h | h | h | h <;> subst h <;> dsimp only <;> split_ifs <;> simp

/-- C5: a valid RESET command followed by GET_STATE (with no intervening
command) yields a response in which every axis is `AXIS_IDLE` and not homed,
the illumination mask is 0 and the LED pattern is 0. -/
theorem protocol_v2_reset_then_get_state (g : Globals) (id1 id2 : Nat) :
    ∃ r, (handle_cmd_get_state (handle_cmd_reset g id1).1 id2).2 = [r]
      ∧ r.axes0.state = AXIS_IDLE ∧ r.axes1.state = AXIS_IDLE
      ∧ r.axes2.state = AXIS_IDLE ∧ r.axes3.state = AXIS_IDLE
      ∧ r.axes0.homed = 0 ∧ r.axes1.homed = 0
      ∧ r.axes2.homed = 0 ∧ r.axes3.homed = 0
      ∧ r.illum_on_mask = 0 ∧ r.led_pattern = 0 :=
  ⟨_, rfl, rfl, rfl, rfl, rfl, rfl, rfl, rfl, rfl, rfl, rfl⟩

/-- C7: a validated frame whose payload is shorter than 2 bytes causes no
handler to run (the globals are unchanged) and exactly one response, with
`cmd_id = 0`, `status = STATUS_REJECTED` and
`error_code = ERR_PACKET_TOO_SHORT`. -/
theorem process_command_too_short (g : Globals) (payload : List Nat)
    (h : payload.length < 2) :
    process_command g payload
        = (g, [protocol_v2_build_response g 0 STATUS_REJECTED ERR_PACKET_TOO_SHORT])
      ∧ (protocol_v2_build_response g 0 STATUS_REJECTED ERR_PACKET_TOO_SHORT).cmd_id = 0
      ∧ (protocol_v2_build_response g 0 STATUS_REJECTED ERR_PACKET_TOO_SHORT).status
          = STATUS_REJECTED
      ∧ (protocol_v2_build_response g 0 STATUS_REJECTED ERR_PACKET_TOO_SHORT).error_code
          = ERR_PACKET_TOO_SHORT := by
  unfold process_command
  rw [if_pos h]
  exact ⟨rfl, rfl, rfl, rfl⟩

/-- A concrete quiescent firmware state, used by witnesses. -/
def exampleGlobals : Globals :=
  { mcu_cmd_execution_in_progress := false
    X_commanded_movement_in_progress := false
    Y_commanded_movement_in_progress := false
    Z_commanded_movement_in_progress := false
    W_commanded_movement_in_progress := false
    is_homing_X := false, is_homing_Y := false, is_homing_Z := false
    is_homing_W := false, is_homing_XY := false
    home_X_found := false, home_Y_found := false, home_Z_found := false
    home_W_found := false
    is_preparing_for_homing_X := false, is_preparing_for_homing_Y := false
    is_preparing_for_homing_Z := false, is_preparing_for_homing_W := false
    trigger_mode := 0
    X_use_encoder := false, Y_use_encoder := false, Z_use_encoder := false
    X_pos := 0, Y_pos := 0, Z_pos := 0
    tmc4361_pos_x := 0, tmc4361_pos_y := 0, tmc4361_pos_z := 0, tmc4361_pos_w := 0
    X_commanded_target_position := 0, Y_commanded_target_position := 0
    Z_commanded_target_position := 0, W_commanded_target_position := 0
    joystick_delta_x := 0, joystick_delta_y := 0
    joystick_button_pressed := false
    illumination_channel_states := 0
    current_led_pattern := 0
    strobe_channels := [] }

/-- Witness for C7 at the 1-byte payload `[5]` in the quiescent state. -/
theorem process_command_too_short_witness :
    process_command exampleGlobals [5]
        = (exampleGlobals,
           [protocol_v2_build_response exampleGlobals 0 STATUS_REJECTED ERR_PACKET_TOO_SHORT])
      ∧ (protocol_v2_build_response exampleGlobals 0 STATUS_REJECTED ERR_PACKET_TOO_SHORT).cmd_id = 0
      ∧ (protocol_v2_build_response exampleGlobals 0 STATUS_REJECTED ERR_PACKET_TOO_SHORT).status
          = STATUS_REJECTED
      ∧ (protocol_v2_build_response exampleGlobals 0 STATUS_REJECTED ERR_PACKET_TOO_SHORT).error_code
          = ERR_PACKET_TOO_SHORT :=
  process_command_too_short exampleGlobals [5] (by decide)

/-- C9: `handle_cmd_reset` assigns exactly the motion/homing flags,
`trigger_mode`, `mcu_cmd_execution_in_progress` and the illumination
tracking variables; every other global — in particular every field of the
six strobe channels — is left unchanged, so RESET does not force-disarm an
in-flight strobe pulse. -/
theorem handle_cmd_reset_frame (g : Globals) (cmd_id : Nat) :
    (handle_cmd_reset g cmd_id).1
        = { g with
            mcu_cmd_execution_in_progress := false
            X_commanded_movement_in_progress := false
            Y_commanded_movement_in_progress := false
            Z_commanded_movement_in_progress := false
            W_commanded_movement_in_progress := false
            is_homing_X := false
            is_homing_Y := false
            is_homing_Z := false
            is_homing_W := false
            is_homing_XY := false
            home_X_found := false
            home_Y_found := false
            home_Z_found := false
            home_W_found := false
            is_preparing_for_homing_X := false
            is_preparing_for_homing_Y := false
            is_preparing_for_homing_Z := false
            is_preparing_for_homing_W := false
            trigger_mode := 0
            illumination_channel_states := 0
            current_led_pattern := 0 }
      ∧ (handle_cmd_reset g cmd_id).1.strobe_channels = g.strobe_channels :=
  ⟨rfl, rfl⟩

/-! ## Strobe/trigger timing engine (`functions.cpp` lines 351-387) -/

/-- 2^32, the modulus of Teensy `micros()` arithmetic. -/
def u32 : Nat := 4294967296

/-- Unsigned 32-bit subtraction, as in the C expression
`micros() - timestamp_trigger_rising_edge[ch]`. -/
def u32_sub (a b : Nat) : Nat := (a + (u32 - b % u32)) % u32

/-- An illumination side effect of the interrupt handler, with the time (µs)
at which it happens. -/
inductive IllumEvent where
  | illumOn (t : Nat)
  | illumOff (t : Nat)
  deriving DecidableEq, Repr

/-- One channel's slice of `ISR_strobeTimer` (functions.cpp lines 351-387) at
a tick occurring at time `t` (µs).  `micros()` is modelled as returning `t`
at every read within the tick; the `delayMicroseconds` busy wait of the
short-pulse path is modelled by the off event at `t + illumination_on_time`.
`turn_on_illumination` / `turn_off_illumination` calls are recorded as
events.  In the long-pulse regime the second condition reads
`strobe_output_level` after the first may have set it, exactly as in the
source. -/
def ISR_strobeTimer_channel (t : Nat) (ch : StrobeChannel) : StrobeChannel × List IllumEvent :=
  if ch.control_strobe then
    if ch.illumination_on_time ≤ 30000 then
      if u32_sub t ch.timestamp_trigger_rising_edge ≥ ch.strobe_delay
          ∧ ch.strobe_output_level = false then
        ({ ch with control_strobe := false },
         [.illumOn t, .illumOff (t + ch.illumination_on_time)])
      else (ch, [])
    else
      let start :=
        if u32_sub t ch.timestamp_trigger_rising_edge ≥ ch.strobe_delay
            ∧ ch.strobe_output_level = false then
          ({ ch with strobe_output_level := true }, [IllumEvent.illumOn t])
        else (ch, ([] : List IllumEvent))
      let ch1 := start.1
      if u32_sub t ch1.timestamp_trigger_rising_edge
            ≥ (ch1.strobe_delay + ch1.illumination_on_time) % u32
          ∧ ch1.strobe_output_level = true then
        ({ ch1 with strobe_output_level := false, control_strobe := false },
         start.2 ++ [.illumOff t])
      else (ch1, start.2)
  else (ch, [])

/-- The full `ISR_strobeTimer` tick: the loop over the 6 camera channels,
each advanced independently; the illumination events are emitted in channel
order. -/
def ISR_strobeTimer (t : Nat) (chs : List StrobeChannel) : List StrobeChannel × List IllumEvent :=
  (chs.map (fun ch => (ISR_strobeTimer_channel t ch).1),
   (chs.map (fun ch => (ISR_strobeTimer_channel t ch).2)).flatten)

theorem u32_sub_eq (a b : Nat) (hba : b ≤ a) (ha : a < u32) : u32_sub a b = a - b := by
  unfold u32_sub u32 at *
  omega

/-- Counterexample to C6 as stated: a long pulse (`illumination_on_time =
30001 > 30000`) whose first qualifying tick arrives only at `t = 30001`,
when the elapsed time already reaches `strobe_delay + illumination_on_time`.
C6 predicts this tick turns illumination on, sets the level HIGH and leaves
`control_strobe` set; the code additionally runs the end-of-strobe branch in
the same tick (it re-reads the level after the start branch set it), turning
illumination off, resetting the level to LOW and clearing `control_strobe`. -/
theorem ISR_strobeTimer_long_pulse_counterexample :
    ISR_strobeTimer_channel 30001 ⟨true, false, false, 0, 30001, 0⟩
        = (⟨false, false, false, 0, 30001, 0⟩,
           [IllumEvent.illumOn 30001, IllumEvent.illumOff 30001])
      ∧ ¬ (ISR_strobeTimer_channel 30001 ⟨true, false, false, 0, 30001, 0⟩).1.control_strobe
            = true := by
  decide

/-- C6 (amended): on a tick at time `t` for an armed channel: a short pulse
(`illumination_on_time ≤ 30000`) whose delay has elapsed while the level is
LOW turns illumination on at `t`, off at `t + illumination_on_time`, and
disarms, the level staying LOW; a long pulse whose delay has elapsed while
the level is LOW — provided the elapsed time has not yet reached
`strobe_delay + illumination_on_time` — turns illumination on and sets the
level HIGH, leaving `control_strobe` set; and a tick with the level HIGH
whose elapsed time reaches `strobe_delay + illumination_on_time` turns
illumination off, resets the level to LOW and disarms. -/
theorem ISR_strobeTimer_regimes (ch : StrobeChannel) (t : Nat)
    (harm : ch.control_strobe = true)
    (hts : ch.timestamp_trigger_rising_edge ≤ t)
    (ht : t < u32)
    (hsum : ch.strobe_delay + ch.illumination_on_time < u32) :
    (ch.illumination_on_time ≤ 30000 →
      ch.strobe_delay ≤ t - ch.timestamp_trigger_rising_edge →
      ch.strobe_output_level = false →
      ISR_strobeTimer_channel t ch
        = ({ ch with control_strobe := false },
           [.illumOn t, .illumOff (t + ch.illumination_on_time)]))
    ∧ (30000 < ch.illumination_on_time →
        (ch.strobe_delay ≤ t - ch.timestamp_trigger_rising_edge →
         ch.strobe_output_level = false →
         t - ch.timestamp_trigger_rising_edge
             < ch.strobe_delay + ch.illumination_on_time →
         ISR_strobeTimer_channel t ch
           = ({ ch with strobe_output_level := true }, [.illumOn t]))
        ∧ (ch.strobe_output_level = true →
           ch.strobe_delay + ch.illumination_on_time
               ≤ t - ch.timestamp_trigger_rising_edge →
           ISR_strobeTimer_channel t ch
             = ({ ch with strobe_output_level := false, control_strobe := false },
                [.illumOff t]))) := by
  have hu : u32_sub t ch.timestamp_trigger_rising_edge
      = t - ch.timestamp_trigger_rising_edge := u32_sub_eq _ _ hts ht
  refine ⟨?_, fun hlong => ⟨?_, ?_⟩⟩
  · intro hshort hdel hlow
    simp only [ISR_strobeTimer_channel, harm, hu, hlow, if_true]
    rw [if_pos hshort, if_pos ⟨hdel, trivial⟩]
  · intro hdel hlow hnotend
    simp only [ISR_strobeTimer_channel, harm, hu, hlow, if_true]
    rw [if_neg (by omega)]
    rw [if_pos (show t - ch.timestamp_trigger_rising_edge ≥ ch.strobe_delay ∧ True from
      ⟨hdel, trivial⟩)]
    dsimp only
    rw [hu, Nat.mod_eq_of_lt hsum]
    rw [if_neg (fun hcon => absurd hcon.1 (by omega))]
  · intro hhigh hend
    simp only [ISR_strobeTimer_channel, harm, hu, hhigh, if_true]
    rw [if_neg (by omega)]
    rw [if_neg (show ¬(t - ch.timestamp_trigger_rising_edge ≥ ch.strobe_delay ∧ true = false)
      from fun hcon => by simp at hcon)]
    dsimp only
    rw [hu, hhigh, Nat.mod_eq_of_lt hsum]
    rw [if_pos ⟨by omega, rfl⟩]
    simp

/-- Witness for C6 (amended) on all three regimes at concrete channels. -/
theorem ISR_strobeTimer_regimes_witness :
    ISR_strobeTimer_channel 5 ⟨true, false, false, 5, 10000, 0⟩
        = (⟨false, false, false, 5, 10000, 0⟩,
           [IllumEvent.illumOn 5, IllumEvent.illumOff 10005])
      ∧ ISR_strobeTimer_channel 10 ⟨true, false, false, 0, 50000, 0⟩
        = (⟨true, true, false, 0, 50000, 0⟩, [IllumEvent.illumOn 10])
      ∧ ISR_strobeTimer_channel 50000 ⟨true, true, false, 0, 50000, 0⟩
        = (⟨false, false, false, 0, 50000, 0⟩, [IllumEvent.illumOff 50000]) := by
  refine ⟨?_, ?_, ?_⟩
  · exact (ISR_strobeTimer_regimes ⟨true, false, false, 5, 10000, 0⟩ 5
      (by decide) (by decide) (by decide) (by decide)).1 (by decide) (by decide) (by decide)
  · exact ((ISR_strobeTimer_regimes ⟨true, false, false, 0, 50000, 0⟩ 10
      (by decide) (by decide) (by decide) (by decide)).2 (by decide)).1
      (by decide) (by decide) (by decide)
  · exact ((ISR_strobeTimer_regimes ⟨true, true, false, 0, 50000, 0⟩ 50000
      (by decide) (by decide) (by decide) (by decide)).2 (by decide)).2
      (by decide) (by decide)

/-! ## Legacy fixed-length protocol (`controller_ttl_only`) -/

def CMD_LENGTH : Nat := 8
def MSG_LENGTH : Nat := 24

def COMPLETED_WITHOUT_ERRORS : Nat := 0
def CMD_CHECKSUM_ERROR : Nat := 2

def TURN_ON_ILLUMINATION : Nat := 10
def TURN_OFF_ILLUMINATION : Nat := 11
def SET_ILLUMINATION : Nat := 12
def ANALOG_WRITE_ONBOARD_DAC : Nat := 15
def SET_DAC80508_REFDIV_GAIN : Nat := 16
def SET_ILLUMINATION_INTENSITY_FACTOR : Nat := 17
def INITIALIZE : Nat := 254
def RESET : Nat := 255

def ILLUMINATION_SOURCE_405NM : Nat := 11
def ILLUMINATION_SOURCE_488NM : Nat := 12
def ILLUMINATION_SOURCE_638NM : Nat := 13
def ILLUMINATION_SOURCE_561NM : Nat := 14
def ILLUMINATION_SOURCE_730NM : Nat := 15

/-- One byte of `crc8ccitt` (utils/crc8.cpp): xor the byte in, then 8 rounds
of shift-and-conditionally-xor with polynomial 0x07, in a `uint8_t`. -/
def crc8_update (v b : Nat) : Nat :=
  (List.range 8).foldl
    (fun val _ => if val &&& 0x80 ≠ 0 then ((val <<< 1) ^^^ 0x07) % 256
                  else (val <<< 1) % 256)
    ((v ^^^ (b % 256)) % 256)

/-- `crc8ccitt` (utils/crc8.cpp): CRC-8/CCITT over a byte list, initial
value 0. -/
def crc8ccitt (data : List Nat) : Nat := data.foldl crc8_update 0

/-- The TTL-only firmware's globals observable through the legacy protocol
(globals.cpp), together with the hardware outputs the callbacks drive: the
five laser TTL pins and the SPI writes to the DAC.
`illumination_intensity_factor` is a C `float` always assigned
`float(factor) / 100` for an integer `factor` clamped to 0..100; it is
modelled by that numerator `intensity_factor_percent`. -/
structure LegacySt where
  cmd_id : Nat
  checksum_error : Bool
  illumination_source : Nat
  illumination_intensity : Nat
  intensity_factor_percent : Nat
  illumination_is_on : Bool
  laser_405 : Bool
  laser_488 : Bool
  laser_561 : Bool
  laser_638 : Bool
  laser_730 : Bool
  dac_writes : List (Nat × Nat)
  gain_writes : List (Nat × Nat)
  deriving DecidableEq, Repr

/-- `turn_on_illumination` (illumination.cpp lines 67-92). -/
def legacy_turn_on_illumination (s : LegacySt) : LegacySt :=
  let s := { s with illumination_is_on := true }
  if s.illumination_source = ILLUMINATION_SOURCE_405NM then { s with laser_405 := true }
  else if s.illumination_source = ILLUMINATION_SOURCE_488NM then { s with laser_488 := true }
  else if s.illumination_source = ILLUMINATION_SOURCE_561NM then { s with laser_561 := true }
  else if s.illumination_source = ILLUMINATION_SOURCE_638NM then { s with laser_638 := true }
  else if s.illumination_source = ILLUMINATION_SOURCE_730NM then { s with laser_730 := true }
  else s

/-- `turn_off_illumination` (illumination.cpp lines 94-118). -/
def legacy_turn_off_illumination (s : LegacySt) : LegacySt :=
  let s :=
    if s.illumination_source = ILLUMINATION_SOURCE_405NM then { s with laser_405 := false }
    else if s.illumination_source = ILLUMINATION_SOURCE_488NM then { s with laser_488 := false }
    else if s.illumination_source = ILLUMINATION_SOURCE_561NM then { s with laser_561 := false }
    else if s.illumination_source = ILLUMINATION_SOURCE_638NM then { s with laser_638 := false }
    else if s.illumination_source = ILLUMINATION_SOURCE_730NM then { s with laser_730 := false }
    else s
  { s with illumination_is_on := false }

/-- `turn_off_all_lasers` (illumination.cpp lines 58-65). -/
def legacy_turn_off_all_lasers (s : LegacySt) : LegacySt :=
  { s with laser_405 := false, laser_488 := false, laser_561 := false,
           laser_638 := false, laser_730 := false }

/-- `set_dac_output` (illumination.cpp lines 44-52), recorded as an SPI
write. -/
def legacy_set_dac_output (s : LegacySt) (channel value : Nat) : LegacySt :=
  { s with dac_writes := s.dac_writes ++ [(channel, value)] }

/-- `set_dac_gain` (illumination.cpp lines 33-42), recorded as an SPI
write. -/
def legacy_set_dac_gain (s : LegacySt) (div gains : Nat) : LegacySt :=
  { s with gain_writes := s.gain_writes ++ [(div, gains)] }

/-- `set_illumination` (illumination.cpp lines 120-157).  The stored
intensity is `intensity * illumination_intensity_factor` truncated to
`uint16_t`; with the factor `percent / 100` this is modelled as
`intensity * percent / 100`. -/
def legacy_set_illumination (s : LegacySt) (source intensity : Nat) : LegacySt :=
  let s := { s with illumination_source := source,
                    illumination_intensity := intensity * s.intensity_factor_percent / 100 % 65536 }
  let s :=
    if source = ILLUMINATION_SOURCE_405NM then legacy_set_dac_output s 0 s.illumination_intensity
    else if source = ILLUMINATION_SOURCE_488NM then legacy_set_dac_output s 1 s.illumination_intensity
    else if source = ILLUMINATION_SOURCE_561NM then legacy_set_dac_output s 2 s.illumination_intensity
    else if source = ILLUMINATION_SOURCE_638NM then legacy_set_dac_output s 3 s.illumination_intensity
    else if source = ILLUMINATION_SOURCE_730NM then legacy_set_dac_output s 4 s.illumination_intensity
    else s
  if s.illumination_is_on then legacy_turn_on_illumination s else s

/-- `callback_default` (commands.cpp lines 26-31): no-op. -/
def callback_default (s : LegacySt) : LegacySt := s

/-- `callback_initialize` (commands.cpp lines 80-92).  `init_dac` performs
SPI configuration and then `set_dac_gain(0x00, 0x80)`; only the gain write
is recorded. -/
def callback_initialize (s : LegacySt) : LegacySt :=
  let s := { s with illumination_source := 0, illumination_intensity := 0,
                    illumination_is_on := false }
  let s := legacy_turn_off_all_lasers s
  legacy_set_dac_gain s 0x00 0x80

/-- `callback_reset` (commands.cpp lines 94-106). -/
def callback_reset (s : LegacySt) : LegacySt :=
  let s := { s with cmd_id := 0 }
  let s := legacy_turn_off_all_lasers s
  { s with illumination_source := 0, illumination_intensity := 0,
           illumination_is_on := false }

/-- The registered entries of `cmd_map` (`init_callbacks`, commands.cpp
lines 7-24); every other command type has a null entry and falls through to
`callback_default`. -/
def registered_commands : List Nat :=
  [TURN_ON_ILLUMINATION, TURN_OFF_ILLUMINATION, SET_ILLUMINATION,
   SET_ILLUMINATION_INTENSITY_FACTOR, SET_DAC80508_REFDIV_GAIN,
   ANALOG_WRITE_ONBOARD_DAC, INITIALIZE, RESET]

/-- `process_serial_message` (serial_communication.cpp lines 8-47) once the
8th byte of a command frame has been accumulated in `buffer_rx`: record
`cmd_id`, validate the CRC-8 over the first 7 bytes against byte 7 (on
mismatch flag the checksum error, flush, and skip dispatch), then dispatch
`buffer_rx[1]` through `cmd_map`, falling back to `callback_default`. -/
def process_8byte_frame (s : LegacySt) (frame : List Nat) : LegacySt :=
  let s := { s with cmd_id := frame.getD 0 0 }
  let checksum := crc8ccitt (frame.take (CMD_LENGTH - 1))
  if checksum ≠ frame.getD (CMD_LENGTH - 1) 0 then
    { s with checksum_error := true }
  else
    let s := { s with checksum_error := false }
    let ct := frame.getD 1 0
    if ct = TURN_ON_ILLUMINATION then legacy_turn_on_illumination s
    else if ct = TURN_OFF_ILLUMINATION then legacy_turn_off_illumination s
    else if ct = SET_ILLUMINATION then
      legacy_set_illumination s (frame.getD 2 0)
        (((frame.getD 3 0) <<< 8) + frame.getD 4 0)
    else if ct = SET_ILLUMINATION_INTENSITY_FACTOR then
      { s with intensity_factor_percent := min (frame.getD 2 0) 100 }
    else if ct = SET_DAC80508_REFDIV_GAIN then
      legacy_set_dac_gain s (frame.getD 2 0) (frame.getD 3 0)
    else if ct = ANALOG_WRITE_ONBOARD_DAC then
      legacy_set_dac_output s (frame.getD 2 0)
        (((frame.getD 3 0) <<< 8) + frame.getD 4 0)
    else if ct = INITIALIZE then callback_initialize s
    else if ct = RESET then callback_reset s
    else callback_default s

/-- `send_position_update` (serial_communication.cpp lines 49-104): the
24-byte reply emitted when the periodic timer fires — `cmd_id`, the status
byte, sixteen zero position bytes, zero flag and reserved bytes, and the
CRC-8 over the first 23 bytes. -/
def send_position_update (s : LegacySt) : List Nat :=
  let status := if s.checksum_error then CMD_CHECKSUM_ERROR else COMPLETED_WITHOUT_ERRORS
  let body := [s.cmd_id, status,
               0, 0, 0, 0, 0, 0, 0, 0, 0, 0, 0, 0, 0, 0, 0, 0,
               0, 0, 0, 0, 0]
  body ++ [crc8ccitt body]

/-- C8: an 8-byte legacy frame with a valid CRC-8 whose command type has no
registered `cmd_map` entry dispatches to `callback_default`: the firmware
state is unchanged except for recording `cmd_id = frame[0]` and clearing the
checksum-error flag — in particular no illumination or hardware output
changes — and the next periodic position-update reply carries status
`COMPLETED_WITHOUT_ERRORS` and echoes `frame[0]` as its first byte. -/
theorem legacy_unregistered_command (s : LegacySt) (frame : List Nat)
    (_hlen : frame.length = CMD_LENGTH)
    (hcrc : crc8ccitt (frame.take 7) = frame.getD 7 0)
    (hreg : frame.getD 1 0 ∉ registered_commands) :
    process_8byte_frame s frame
        = { s with cmd_id := frame.getD 0 0, checksum_error := false }
      ∧ (send_position_update (process_8byte_frame s frame)).getD 1 255
          = COMPLETED_WITHOUT_ERRORS
      ∧ (send_position_update (process_8byte_frame s frame)).getD 0 255
          = frame.getD 0 0 := by
  simp only [registered_commands, List.mem_cons, List.not_mem_nil, or_false, not_or] at hreg
  obtain ⟨h10, h11, h12, h17, h16, h15, h254, h255⟩ := hreg
  have hmain : process_8byte_frame s frame
      = { s with cmd_id := frame.getD 0 0, checksum_error := false } := by
    unfold process_8byte_frame
    have h7 : CMD_LENGTH - 1 = 7 := rfl
    rw [h7, if_neg (not_not_intro hcrc)]
    rw [if_neg h10, if_neg h11, if_neg h12, if_neg h17, if_neg h16, if_neg h15,
        if_neg h254, if_neg h255]
    rfl
  refine ⟨hmain, ?_, ?_⟩ <;> rw [hmain] <;> simp [send_position_update]

/-- A concrete quiescent TTL-only firmware state, used by witnesses. -/
def exampleLegacySt : LegacySt :=
  { cmd_id := 0, checksum_error := false
    illumination_source := 0, illumination_intensity := 0
    intensity_factor_percent := 100, illumination_is_on := false
    laser_405 := false, laser_488 := false, laser_561 := false
    laser_638 := false, laser_730 := false
    dac_writes := [], gain_writes := [] }

/-- Witness for C8: the frame `[7, 0, 0, 0, 0, 0, 0, 19]` (command type 0 =
MOVE_X, unregistered in the TTL-only build; 19 is its CRC-8) leaves the
quiescent state unchanged apart from `cmd_id := 7`, and the periodic reply
reports `COMPLETED_WITHOUT_ERRORS` echoing `cmd_id = 7`. -/
theorem legacy_unregistered_command_witness :
    process_8byte_frame exampleLegacySt [7, 0, 0, 0, 0, 0, 0, 19]
        = { exampleLegacySt with cmd_id := 7, checksum_error := false }
      ∧ (send_position_update
          (process_8byte_frame exampleLegacySt [7, 0, 0, 0, 0, 0, 0, 19])).getD 1 255
          = COMPLETED_WITHOUT_ERRORS
      ∧ (send_position_update
          (process_8byte_frame exampleLegacySt [7, 0, 0, 0, 0, 0, 0, 19])).getD 0 255
          = 7 :=
  legacy_unregistered_command exampleLegacySt [7, 0, 0, 0, 0, 0, 0, 19]
    (by decide) (by decide) (by decide)

/-- Witness for C4 in the quiescent state: with all three flags false the X
axis reports `AXIS_IDLE`. -/
theorem protocol_v2_motion_state_precedence_witness :
    (protocol_v2_build_response exampleGlobals 0 STATUS_OK ERR_NONE).axes0.state = AXIS_IDLE := by
  have h := protocol_v2_motion_state_precedence exampleGlobals 0 STATUS_OK ERR_NONE
  exact h.1.trans (by decide)
